import Mathlib

/-!
Shallow embedding of the ha-magicstrip Home Assistant integration
(custom_components/magicstrip): the discovery and session-lifecycle logic of
__init__.py, the light entity of light.py and the number entity of number.py.
External collaborators (the pymagicstrip device operations, the Home Assistant
update coordinator and dispatcher, and the constants module absent from the
sources) are modelled from the specification where noted.
-/

namespace HaMagicStrip

/-- State snapshot of one LED strip (pymagicstrip MagicStripState).
Modelled from the spec: power on/off, brightness 0-255, RGB colour triple,
active effect name, effect speed, connection-quality metric and the list of
supported effect names; a field the device has not reported yet is none. -/
structure MagicStripState where
  «on» : Bool
  brightness : Option Nat
  color : Option (Nat × Nat × Nat)
  effect : Option String
  effect_speed : Option Nat
  connection_quality : Option Int
  effects_list : List String
deriving DecidableEq, Repr

/-- Modelled from the spec: a freshly constructed session has an all-unknown
snapshot (the concrete scenario of the spec: on false, brightness, colour,
effect and speed unset). -/
def initialState : MagicStripState :=
  { «on» := false, brightness := none, color := none, effect := none,
    effect_speed := none, connection_quality := none, effects_list := [] }

/-- The session object for one physical device (pymagicstrip
MagicStripDevice): its stable address and its mutable state snapshot. -/
structure MagicStripDevice where
  address : String
  state : MagicStripState
deriving DecidableEq, Repr

/-- Modelled from the spec: the advertised service identifier that the
device-class filter matches on (pymagicstrip SERVICE_UUID, external). -/
def SERVICE_UUID : String := "0000ffb0-0000-1000-8000-00805f9b34fb"

/-- A BLE advertisement as far as this integration inspects it. -/
structure AdvertisementData where
  service_uuids : List String
  rssi : Int
deriving DecidableEq, Repr

/-- Modelled from the spec: the recognised-device predicate (pymagicstrip
device_filter), matching on the advertised service identifier. -/
def device_filter (adv : AdvertisementData) : Bool :=
  adv.service_uuids.contains SERVICE_UUID

/-- Modelled from the spec: the integration domain constant from the
constants module (const.py, not among the sources). -/
def DOMAIN : String := "magicstrip"

/-- The per-device update coordinator as this integration uses it: the
last-published snapshot, the success flag of the last update, and the fixed
polling interval in seconds. -/
structure DataUpdateCoordinator where
  data : Option MagicStripState
  last_update_success : Bool
  update_interval_seconds : Nat
deriving DecidableEq, Repr

/-- Publishing a snapshot out of band (Home Assistant
async_set_updated_data): stores the snapshot and marks the update
successful. Modelled from the spec: the publishNow path of the Poll
Coordinator. -/
def DataUpdateCoordinator.async_set_updated_data
    (c : DataUpdateCoordinator) (s : MagicStripState) : DataUpdateCoordinator :=
  { c with data := some s, last_update_success := true }

/-- Display metadata for one entity (Home Assistant DeviceInfo). -/
structure DeviceInfo where
  identifiers : List (String × String)
  name : String
deriving DecidableEq, Repr

/-- A value stored in an extra-state-attributes mapping. -/
inductive AttrVal
  | str (s : String)
  | optInt (i : Option Int)
deriving DecidableEq, Repr

/-- Registry entry for one device (dataclass DeviceState of __init__.py):
the session, its coordinator, and the display metadata of the two
entities. -/
structure DeviceState where
  device : MagicStripDevice
  coordinator : DataUpdateCoordinator
  light_device_info : DeviceInfo
  effect_speed_device_info : DeviceInfo
  light_extra_state_attributes : List (String × AttrVal)
  effect_speed_extra_state_attributes : List (String × AttrVal)
deriving DecidableEq, Repr

/-- The BLE scanner object (bleak BleakScanner) as far as its lifecycle is
observable here: whether it is scanning and whether the detection callback
is registered on it. -/
structure Scanner where
  scanning : Bool
  callback_registered : Bool
deriving DecidableEq, Repr

/-- State of one config entry (dataclass EntryState of __init__.py): the
scanner and the address-keyed registry of devices, embedded as an
association list. -/
structure EntryState where
  scanner : Scanner
  devices : List (String × DeviceState)
deriving DecidableEq, Repr

/-- Dictionary lookup on the registry (state.devices.get(address)). -/
def lookupDevice : List (String × DeviceState) → String → Option DeviceState
  | [], _ => none
  | p :: rest, a => if p.1 = a then some p.2 else lookupDevice rest a

/-- In-place update of the entry stored under an existing key (mutating the
DeviceState object held in the dictionary). -/
def setKey : List (String × DeviceState) → String → DeviceState →
    List (String × DeviceState)
  | [], _, _ => []
  | p :: rest, a, d => if p.1 = a then (a, d) :: rest else p :: setKey rest a d

/-- The keys of the registry, in order. -/
def keysOf (l : List (String × DeviceState)) : List String :=
  l.map (fun p => p.1)

/-- How many registry entries carry a given address. -/
def countKey : List (String × DeviceState) → String → Nat
  | [], _ => 0
  | p :: rest, a => (if p.1 = a then 1 else 0) + countKey rest a

/-- Outcome of the initial contact with a device
(device.detection_callback of pymagicstrip, external): the environment
either hands back a fetched state, or fails with one of the exception
classes the integration distinguishes. -/
inductive ContactOutcome
  | success (s : MagicStripState)
  | bleTimeout
  | updateFailedExc
  | bleakDBus
deriving DecidableEq, Repr

/-- The exceptions that can escape the embedded code paths. -/
inductive HAExc
  | configEntryNotReady
  | updateFailed
  | bleConnectionError
  | uncaughtBle
deriving DecidableEq, Repr

/-- One advertisement event as delivered to the detection callback: the
BLE device address and name, the advertisement data, and the outcome the
transport would produce if contacted. -/
structure AdEvent where
  address : String
  name : String
  adv : AdvertisementData
  outcome : ContactOutcome
deriving DecidableEq, Repr

/-- The registration tail of the detection callback (__init__.py lines
111-172): build the coordinator, publish the device state into it, build
the display metadata, insert the entry into the registry and dispatch one
new-registration event. -/
def registerDevice (st : EntryState) (addr : String)
    (device : MagicStripDevice) : EntryState × List DeviceState :=
  let coordinator : DataUpdateCoordinator :=
    DataUpdateCoordinator.async_set_updated_data
      { data := none, last_update_success := true,
        update_interval_seconds := 120 } device.state
  let light_device_info : DeviceInfo :=
    { identifiers := [(DOMAIN, addr)],
      name := "MagicStrip LED (" ++ addr ++ ")" }
  let effect_speed_device_info : DeviceInfo :=
    { identifiers := [(DOMAIN, addr)],
      name := "MagicStrip LED Effect Speed (" ++ addr ++ ")" }
  let light_extra : List (String × AttrVal) :=
    [("integration", AttrVal.str DOMAIN),
     ("signal_strength", AttrVal.optInt device.state.connection_quality)]
  let effect_speed_extra : List (String × AttrVal) :=
    [("integration", AttrVal.str DOMAIN)]
  let ds : DeviceState :=
    { device := device, coordinator := coordinator,
      light_device_info := light_device_info,
      effect_speed_device_info := effect_speed_device_info,
      light_extra_state_attributes := light_extra,
      effect_speed_extra_state_attributes := effect_speed_extra }
  ({ st with devices := st.devices ++ [(addr, ds)] }, [ds])

/-- The detection callback of __init__.py. For an address already in the
registry: forward the advertisement to the existing session and publish its
state through the existing coordinator (errors there are uncaught). For a
new address: drop it if the device filter rejects it; otherwise construct a
session and attempt first contact. A timeout-class failure (BleTimeoutError
or UpdateFailed) is logged and — because the except clause falls through —
the code still proceeds to register the device; a BleakDBusError raises
ConfigEntryNotReady before anything is registered. -/
def detection_callback (st : EntryState) (ev : AdEvent) :
    Except HAExc (EntryState × List DeviceState) :=
  match lookupDevice st.devices ev.address with
  | some data =>
      match ev.outcome with
      | ContactOutcome.success s =>
          let device2 := { data.device with state := s }
          let coord2 :=
            data.coordinator.async_set_updated_data device2.state
          let data2 := { data with device := device2, coordinator := coord2 }
          Except.ok ({ st with devices := setKey st.devices ev.address data2 }, [])
      | _ => Except.error HAExc.uncaughtBle
  | none =>
      if device_filter ev.adv then
        match ev.outcome with
        | ContactOutcome.success s =>
            Except.ok (registerDevice st ev.address
              { address := ev.address, state := s })
        | ContactOutcome.bleTimeout =>
            Except.ok (registerDevice st ev.address
              { address := ev.address, state := initialState })
        | ContactOutcome.updateFailedExc =>
            Except.ok (registerDevice st ev.address
              { address := ev.address, state := initialState })
        | ContactOutcome.bleakDBus =>
            Except.error HAExc.configEntryNotReady
      else
        Except.ok (st, [])

/-- The registry state after one callback invocation: on an exception the
callback leaves the entry state exactly as it was when the exception was
raised. -/
def dcState (st : EntryState) (ev : AdEvent) : EntryState :=
  match detection_callback st ev with
  | Except.ok (s, _) => s
  | Except.error _ => st

/-- The new-registration events dispatched by one callback invocation. -/
def dcEvents (st : EntryState) (ev : AdEvent) : List DeviceState :=
  match detection_callback st ev with
  | Except.ok (_, evts) => evts
  | Except.error _ => []

/-- The entry state right after async_setup_entry started the scanner and
before any advertisement arrived. -/
def entryStateEmpty : EntryState :=
  { scanner := { scanning := true, callback_registered := true },
    devices := [] }

/-- A whole advertisement trace processed sequentially from the freshly
set-up entry state. -/
def processTrace (evs : List AdEvent) : EntryState :=
  evs.foldl dcState entryStateEmpty

/-- The world visible to setup and unload: the actual status of the bleak
scanner object, and the EntryState reference held in
hass.data[DOMAIN][entry_id]. The scanner object exists independently of the
dictionary entry that references it. -/
structure HassWorld where
  scanner : Scanner
  entry_data : Option EntryState
deriving DecidableEq, Repr

/-- The world right after async_setup_entry returned: the scanner has its
detection callback registered and has been started, and the entry state is
stored under the entry id. -/
def async_setup_entry_model : HassWorld :=
  { scanner := { scanning := true, callback_registered := true },
    entry_data := some entryStateEmpty }

/-- async_unload_entry of __init__.py: if unloading the platforms
succeeded, pop the entry state from hass.data and return the flag. No call
on the scanner and no call on any coordinator appears in this function. -/
def async_unload_entry (w : HassWorld) (unload_ok : Bool) : HassWorld × Bool :=
  if unload_ok then ({ w with entry_data := none }, true) else (w, false)

/-- Modelled from the spec: the default effect placeholder of const.py
(const.py is not among the sources; the spec documents only that a
placeholder exists for an unset effect). -/
def DEFAULT_EFFECT : String := "Off"

/-- Modelled from the spec: the default colour placeholder of const.py. -/
def DEFAULT_COLOR : Nat × Nat × Nat := (255, 255, 255)

/-- Modelled from the spec: the default brightness placeholder of
const.py. -/
def DEFAULT_BRIGHTNESS : Nat := 255

/-- The light entity (MagicStripLight of light.py): the coordinator it
subscribes to, the wrapped device, and the attributes set in its
constructor. -/
structure MagicStripLight where
  coordinator : DataUpdateCoordinator
  device : MagicStripDevice
  effect_list : List String
  unique_id : String
  device_info : DeviceInfo
  extra_state_attributes : List (String × AttrVal)
  name : String
  icon : String
deriving DecidableEq, Repr

/-- The light platform constructor (_constructor of light.py): reads the
fields light_device_info and light_extra_state_attributes, which exist on
DeviceState. -/
def light_constructor (ds : DeviceState) : List MagicStripLight :=
  [{ coordinator := ds.coordinator,
     device := ds.device,
     effect_list := ds.device.state.effects_list ++ [DEFAULT_EFFECT],
     unique_id := ds.device.address,
     device_info := ds.light_device_info,
     extra_state_attributes := ds.light_extra_state_attributes,
     name := ds.light_device_info.name,
     icon := "mdi:led-strip-variant" }]

/-- The effect property of the light entity: with a coordinator snapshot,
substitute the default when the stored effect is falsy (Python: None or the
empty string); with no snapshot, None. -/
def lightEffectProp (data : Option MagicStripState) : Option String :=
  match data with
  | none => none
  | some d =>
      match d.effect with
      | none => some DEFAULT_EFFECT
      | some e => some (if e = "" then DEFAULT_EFFECT else e)

/-- The rgb_color property of the light entity: with a coordinator
snapshot, substitute the default when the stored colour is falsy (Python:
only None, a triple is always truthy); with no snapshot, None. -/
def lightRgbColorProp (data : Option MagicStripState) :
    Option (Nat × Nat × Nat) :=
  match data with
  | none => none
  | some d =>
      match d.color with
      | none => some DEFAULT_COLOR
      | some c => some c

/-- The brightness property of the light entity: with a coordinator
snapshot, substitute the default when the stored brightness is falsy
(Python: None or 0); with no snapshot, None. -/
def lightBrightnessProp (data : Option MagicStripState) : Option Nat :=
  match data with
  | none => none
  | some d =>
      match d.brightness with
      | none => some DEFAULT_BRIGHTNESS
      | some b => some (if b = 0 then DEFAULT_BRIGHTNESS else b)

/-- The is_on property of the light entity. -/
def lightIsOnProp (data : Option MagicStripState) : Option Bool :=
  match data with
  | none => none
  | some d => some d.«on»

/-- The effect property of the number entity (number.py duplicates the
light property bodies verbatim). -/
def numberEffectProp (data : Option MagicStripState) : Option String :=
  match data with
  | none => none
  | some d =>
      match d.effect with
      | none => some DEFAULT_EFFECT
      | some e => some (if e = "" then DEFAULT_EFFECT else e)

/-- The rgb_color property of the number entity. -/
def numberRgbColorProp (data : Option MagicStripState) :
    Option (Nat × Nat × Nat) :=
  match data with
  | none => none
  | some d =>
      match d.color with
      | none => some DEFAULT_COLOR
      | some c => some c

/-- The brightness property of the number entity. -/
def numberBrightnessProp (data : Option MagicStripState) : Option Nat :=
  match data with
  | none => none
  | some d =>
      match d.brightness with
      | none => some DEFAULT_BRIGHTNESS
      | some b => some (if b = 0 then DEFAULT_BRIGHTNESS else b)

/-- Dynamic attribute access on a DeviceState for DeviceInfo-valued
attributes, as Python resolves it: only the fields that actually exist on
the dataclass resolve; any other attribute name is an AttributeError
(none). -/
def DeviceState.getattrDeviceInfo (ds : DeviceState) (attr : String) :
    Option DeviceInfo :=
  if attr = "light_device_info" then some ds.light_device_info
  else if attr = "effect_speed_device_info" then
    some ds.effect_speed_device_info
  else none

/-- Dynamic attribute access on a DeviceState for attribute-mapping-valued
attributes, as Python resolves it. -/
def DeviceState.getattrAttrs (ds : DeviceState) (attr : String) :
    Option (List (String × AttrVal)) :=
  if attr = "light_extra_state_attributes" then
    some ds.light_extra_state_attributes
  else if attr = "effect_speed_extra_state_attributes" then
    some ds.effect_speed_extra_state_attributes
  else none

/-- The number entity (MagicStripEffectSpeed of number.py) with the
attributes its constructor sets. -/
structure MagicStripEffectSpeed where
  coordinator : DataUpdateCoordinator
  device : MagicStripDevice
  device_info : DeviceInfo
  extra_state_attributes : List (String × AttrVal)
  mode : String
  min_value : Nat
  max_value : Nat
deriving DecidableEq, Repr

/-- The number platform constructor (_constructor of number.py): it reads
device_state.device_info and device_state.extra_state_attributes off the
DeviceState; construction succeeds only if both attribute lookups
resolve. -/
def number_constructor (ds : DeviceState) :
    Option (List MagicStripEffectSpeed) :=
  match ds.getattrDeviceInfo "device_info" with
  | none => none
  | some di =>
      match ds.getattrAttrs "extra_state_attributes" with
      | none => none
      | some attrs =>
          some [{ coordinator := ds.coordinator, device := ds.device,
                  device_info := di, extra_state_attributes := attrs,
                  mode := "slider", min_value := 0, max_value := 255 }]

/-- One device command call as issued by the entity methods. -/
inductive Cmd
  | togglePower
  | setBrightness (b : Nat)
  | setColor (r g bl : Nat)
  | setEffect (e : Option String)
deriving DecidableEq, Repr

/-- Modelled from the spec: the pymagicstrip command operations record the
requested value optimistically in the session snapshot on success
(read-after-write is reconciled only by the next refresh). -/
def MagicStripDevice.applyCmd (d : MagicStripDevice) : Cmd → MagicStripDevice
  | Cmd.togglePower =>
      { d with state := { d.state with «on» := !d.state.«on» } }
  | Cmd.setBrightness b =>
      { d with state := { d.state with brightness := some b } }
  | Cmd.setColor r g bl =>
      { d with state := { d.state with color := some (r, g, bl) } }
  | Cmd.setEffect e =>
      { d with state := { d.state with effect := e } }

/-- Run a list of device commands in order; the transport may reject the
i-th issued command with BleConnectionError, chosen by the environment
through failAt. -/
def runCmds (failAt : Option Nat) :
    MagicStripDevice → List Cmd → Nat → Except HAExc MagicStripDevice
  | d, [], _ => Except.ok d
  | d, c :: rest, i =>
      if failAt = some i then Except.error HAExc.bleConnectionError
      else runCmds failAt (d.applyCmd c) rest (i + 1)

/-- The keyword arguments of async_turn_on: which of ATTR_BRIGHTNESS,
ATTR_RGB_COLOR and ATTR_EFFECT are present, and their values. -/
structure TurnOnKwargs where
  brightness : Option Nat
  rgb_color : Option (Nat × Nat × Nat)
  effect : Option String
deriving DecidableEq, Repr

/-- The toggle step of async_turn_on: `if not self.is_on` — Python
truthiness, so the toggle runs unless is_on is exactly True. -/
def toggleCmds (coordData : Option MagicStripState) : List Cmd :=
  if lightIsOnProp coordData = some true then [] else [Cmd.togglePower]

/-- The brightness step of async_turn_on: issued whenever ATTR_BRIGHTNESS
is among the keyword arguments. -/
def brightnessCmds (kb : Option Nat) : List Cmd :=
  match kb with
  | some b => [Cmd.setBrightness b]
  | none => []

/-- The colour step of async_turn_on: issued when ATTR_RGB_COLOR is among
the keyword arguments and differs from the rgb_color property (which reads
the coordinator snapshot with the default substituted). -/
def colorCmds (coordData : Option MagicStripState)
    (kc : Option (Nat × Nat × Nat)) : List Cmd :=
  match kc with
  | some c =>
      if some c = lightRgbColorProp coordData then []
      else [Cmd.setColor c.1 c.2.1 c.2.2]
  | none => []

/-- The effect step of async_turn_on: issued when ATTR_EFFECT is among the
keyword arguments and differs from the effect property; the default effect
placeholder is mapped back to None before the command is sent. -/
def effectCmds (coordData : Option MagicStripState)
    (ke : Option String) : List Cmd :=
  match ke with
  | some e =>
      if some e = lightEffectProp coordData then []
      else [Cmd.setEffect (if e = DEFAULT_EFFECT then none else some e)]
  | none => []

/-- The full command sequence async_turn_on issues, in source order. All
entity properties read the coordinator snapshot, which is only replaced by
the final publish, so every condition is evaluated against the snapshot
from before the call. -/
def turnOnCmds (coordData : Option MagicStripState)
    (kw : TurnOnKwargs) : List Cmd :=
  toggleCmds coordData ++ brightnessCmds kw.brightness ++
    colorCmds coordData kw.rgb_color ++ effectCmds coordData kw.effect

/-- async_turn_on of light.py: issue the commands; a BleConnectionError is
re-raised as UpdateFailed and the trailing publish is skipped; otherwise
the session state is published through the coordinator after the last
command. -/
def MagicStripLight.async_turn_on (ent : MagicStripLight)
    (kw : TurnOnKwargs) (failAt : Option Nat) : Except HAExc MagicStripLight :=
  match runCmds failAt ent.device (turnOnCmds ent.coordinator.data kw) 0 with
  | Except.error _ => Except.error HAExc.updateFailed
  | Except.ok d2 =>
      Except.ok
        { ent with
            device := d2
            coordinator := ent.coordinator.async_set_updated_data d2.state }

/-- async_turn_off of light.py: toggle if currently on (no try/except in
this method, so a transport error propagates as raised), then publish the
session state through the coordinator. -/
def MagicStripLight.async_turn_off (ent : MagicStripLight)
    (failAt : Option Nat) : Except HAExc MagicStripLight :=
  let cmds :=
    if lightIsOnProp ent.coordinator.data = some true then [Cmd.togglePower]
    else []
  match runCmds failAt ent.device cmds 0 with
  | Except.error e => Except.error e
  | Except.ok d2 =>
      Except.ok
        { ent with
            device := d2
            coordinator := ent.coordinator.async_set_updated_data d2.state }

/-- Outcome of one refresh interaction with the device (device.update of
pymagicstrip, external): the refreshed state, or a timeout. -/
inductive UpdateOutcome
  | success (s : MagicStripState)
  | timeout
deriving DecidableEq, Repr

/-- The update method handed to the coordinator (async_update_data of
__init__.py): await device.update, converting any timeout-class exception
into UpdateFailed, and on success return the device state. -/
def async_update_data (dev : MagicStripDevice) (o : UpdateOutcome) :
    Except HAExc (MagicStripDevice × MagicStripState) :=
  match o with
  | UpdateOutcome.success s =>
      let dev2 := { dev with state := s }
      Except.ok (dev2, dev2.state)
  | UpdateOutcome.timeout => Except.error HAExc.updateFailed

/-- Modelled from the spec: one tick of the Poll Coordinator (the Home
Assistant DataUpdateCoordinator is external). On success it stores and
publishes the returned snapshot and clears the failure flag; on
UpdateFailed it sets the failure flag and retains the previous snapshot. -/
def coordinator_refresh (c : DataUpdateCoordinator) (dev : MagicStripDevice)
    (o : UpdateOutcome) : DataUpdateCoordinator × MagicStripDevice :=
  match async_update_data dev o with
  | Except.ok (d2, s) =>
      ({ c with data := some s, last_update_success := true }, d2)
  | Except.error _ =>
      ({ c with last_update_success := false }, dev)

/-- An operation observable by the subscriber fan-out: a new-device
registration reaching the detection callback, or a platform subscribing
(async_setup_entry_platform: deliver all existing entries, then connect the
callback on the dispatcher signal). Devices are abstracted by address. -/
inductive FanOp
  | newDevice (addr : String)
  | subscr (sid : Nat)
deriving DecidableEq, Repr

/-- Fan-out state: the addresses in the registry in insertion order, the
connected subscriber callbacks, and a log of which subscriber was handed
which entry. -/
structure FanState where
  devices : List String
  subs : List Nat
  received : List (Nat × String)
deriving DecidableEq, Repr

/-- The empty fan-out state of a fresh entry. -/
def initFan : FanState :=
  { devices := [], subs := [], received := [] }

/-- One fan-out step. A registration for an address already present
forwards to the existing session and dispatches nothing (the detection
callback takes the update branch); a new address is appended and dispatched
once to every connected subscriber (async_dispatcher_send). A subscription
synchronously hands every existing entry to the new subscriber
(async_add_entities over entry_state.devices.values) and then connects it
(async_dispatcher_connect). -/
def fanStep (s : FanState) : FanOp → FanState
  | FanOp.newDevice a =>
      if s.devices.contains a then s
      else
        { devices := s.devices ++ [a]
          subs := s.subs
          received := s.received ++ s.subs.map (fun t => (t, a)) }
  | FanOp.subscr sid =>
      { devices := s.devices
        subs := s.subs ++ [sid]
        received := s.received ++ s.devices.map (fun a => (sid, a)) }

/-- Run a sequence of fan-out operations. -/
def runOps (s : FanState) : List FanOp → FanState
  | [] => s
  | op :: rest => runOps (fanStep s op) rest

/-- The entries handed to one subscriber, in delivery order. -/
def receivedBy (sid : Nat) : List (Nat × String) → List String
  | [] => []
  | p :: rest =>
      if p.1 = sid then p.2 :: receivedBy sid rest else receivedBy sid rest

/-- The new-registration events produced while running a sequence of
operations from a given state: the addresses that were actually inserted
(an advertisement for a present address produces no event). -/
def regsDuring (s : FanState) : List FanOp → List String
  | [] => []
  | op :: rest =>
      (match op with
       | FanOp.newDevice a => if s.devices.contains a then [] else [a]
       | FanOp.subscr _ => []) ++ regsDuring (fanStep s op) rest

/-- Occurrences of a subscriber id in the connected-subscriber list. -/
def countSub (sid : Nat) : List Nat → Nat
  | [] => 0
  | t :: rest => (if t = sid then 1 else 0) + countSub sid rest

/-- An advertisement carrying the recognised service identifier. -/
def exAdv : AdvertisementData :=
  { service_uuids := [SERVICE_UUID], rssi := -60 }

/-- An advertisement of some unrelated BLE device. -/
def exAdvUnknown : AdvertisementData :=
  { service_uuids := ["0000feed-0000-1000-8000-00805f9b34fb"], rssi := -60 }

/-- The device address of the concrete scenario in the spec. -/
def exAddr : String := "AA:BB:CC:DD:EE:FF"

/-- First advertisement of a new device whose initial contact times out. -/
def exTimeoutEvent : AdEvent :=
  { address := exAddr, name := "MagicStrip", adv := exAdv,
    outcome := ContactOutcome.bleTimeout }

/-- First advertisement of a new device whose initial contact fails with
BleakDBusError. -/
def exDBusEvent : AdEvent :=
  { address := exAddr, name := "MagicStrip", adv := exAdv,
    outcome := ContactOutcome.bleakDBus }

/-- Advertisement of a device that does not pass the device filter. -/
def exFilteredEvent : AdEvent :=
  { address := "11:22:33:44:55:66", name := "OtherDevice", adv := exAdvUnknown,
    outcome := ContactOutcome.success initialState }

/-- Advertisement of an already-registered device, contacted
successfully. -/
def exSuccessEvent : AdEvent :=
  { address := exAddr, name := "MagicStrip", adv := exAdv,
    outcome := ContactOutcome.success initialState }

/-- A registered device entry used by concrete instantiations. -/
def exDeviceState : DeviceState :=
  { device := { address := exAddr, state := initialState }
    coordinator :=
      { data := some initialState, last_update_success := true,
        update_interval_seconds := 120 }
    light_device_info :=
      { identifiers := [(DOMAIN, exAddr)],
        name := "MagicStrip LED (" ++ exAddr ++ ")" }
    effect_speed_device_info :=
      { identifiers := [(DOMAIN, exAddr)],
        name := "MagicStrip LED Effect Speed (" ++ exAddr ++ ")" }
    light_extra_state_attributes := [("integration", AttrVal.str DOMAIN)]
    effect_speed_extra_state_attributes :=
      [("integration", AttrVal.str DOMAIN)] }

/-- An entry state already holding the example device. -/
def exEntryStateWithDevice : EntryState :=
  { scanner := { scanning := true, callback_registered := true },
    devices := [(exAddr, exDeviceState)] }

/-- A concrete light entity over the example device. -/
def exLight : MagicStripLight :=
  { coordinator :=
      { data := some initialState, last_update_success := true,
        update_interval_seconds := 120 }
    device := { address := exAddr, state := initialState }
    effect_list := [DEFAULT_EFFECT]
    unique_id := exAddr
    device_info :=
      { identifiers := [(DOMAIN, exAddr)],
        name := "MagicStrip LED (" ++ exAddr ++ ")" }
    extra_state_attributes := [("integration", AttrVal.str DOMAIN)]
    name := "MagicStrip LED (" ++ exAddr ++ ")"
    icon := "mdi:led-strip-variant" }

/-- Keyword arguments requesting brightness 128. -/
def exKwargs : TurnOnKwargs :=
  { brightness := some 128, rgb_color := none, effect := none }

/-- C1: evaluating the detection callback at the failing input — an empty
registry and a first advertisement of a new address whose initial contact
fails with BleTimeoutError — shows that, although the error is only
logged, the code still registers the device: the registry gains an entry
for that address and a new-registration event is dispatched, because the
timeout-handling except clause falls through without returning. This
contradicts the claim that no registry entry, Poll Coordinator or event is
produced. -/
theorem c1_timeout_still_registers :
    (lookupDevice (dcState entryStateEmpty exTimeoutEvent).devices
        exAddr).isSome = true ∧
    (dcEvents entryStateEmpty exTimeoutEvent).length = 1 := by
  exact ⟨rfl, rfl⟩

/-- C3: the number platform constructor reads the attributes device_info
and extra_state_attributes off the DeviceState record; neither field
exists on the dataclass (the actual fields are effect_speed_device_info
and effect_speed_extra_state_attributes), so constructing the effect-speed
slider entity fails for every registered DeviceState, contradicting the
claim that it never fails. -/
theorem c3_number_constructor_always_fails (ds : DeviceState) :
    number_constructor ds = none := by
  rfl

/-- C4: evaluating the unload path shows that teardown discards the
registry without tearing down the advertisement stream: after
async_unload_entry returns true, the entry state has been popped while the
scanner object is exactly as setup left it — still scanning with the
detection callback registered — so a later advertisement can still drive
the callback that closes over the discarded registry. This contradicts the
claim that the subscription is torn down before the registry is
discarded. -/
theorem c4_unload_leaves_scanner_running :
    (async_unload_entry async_setup_entry_model true).1.entry_data = none ∧
    (async_unload_entry async_setup_entry_model true).1.scanner =
      { scanning := true, callback_registered := true } := by
  exact ⟨rfl, rfl⟩

/-- C5: if the very first contact with a new device fails with
BleakDBusError, the detection callback raises ConfigEntryNotReady — the
setup-level retry-later signal — and the registry is left untouched: no
entry is created for that address and no event is dispatched. -/
theorem c5_bleakdbus_aborts_setup (st : EntryState) (ev : AdEvent)
    (h1 : lookupDevice st.devices ev.address = none)
    (h2 : device_filter ev.adv = true)
    (h3 : ev.outcome = ContactOutcome.bleakDBus) :
    detection_callback st ev = Except.error HAExc.configEntryNotReady ∧
    dcState st ev = st ∧ dcEvents st ev = [] := by
  have hcb : detection_callback st ev =
      Except.error HAExc.configEntryNotReady := by
    unfold detection_callback
    rw [h1, h3]
    simp [h2]
  refine ⟨hcb, ?_, ?_⟩
  · unfold dcState
    rw [hcb]
  · unfold dcEvents
    rw [hcb]

/-- Witness for C5 at the concrete failing-contact event on the empty
registry. -/
theorem c5_bleakdbus_aborts_setup_witness :
    detection_callback entryStateEmpty exDBusEvent =
      Except.error HAExc.configEntryNotReady ∧
    dcState entryStateEmpty exDBusEvent = entryStateEmpty ∧
    dcEvents entryStateEmpty exDBusEvent = [] :=
  c5_bleakdbus_aborts_setup entryStateEmpty exDBusEvent rfl rfl rfl

/-- C6: an advertisement for an unknown address that fails the
device-class filter is discarded silently: the callback returns with the
entry state unchanged and no event — no session, no coordinator, no
registry entry, no registration event. -/
theorem c6_filtered_advertisement_no_effect (st : EntryState) (ev : AdEvent)
    (h1 : lookupDevice st.devices ev.address = none)
    (h2 : device_filter ev.adv = false) :
    detection_callback st ev = Except.ok (st, []) := by
  unfold detection_callback
  rw [h1]
  simp [h2]

/-- Witness for C6 at the concrete unrecognised advertisement on the empty
registry. -/
theorem c6_filtered_advertisement_no_effect_witness :
    detection_callback entryStateEmpty exFilteredEvent =
      Except.ok (entryStateEmpty, []) :=
  c6_filtered_advertisement_no_effect entryStateEmpty exFilteredEvent rfl rfl

/-- C8: when the poll times out, the update method raises UpdateFailed —
it never returns a null snapshot — and the coordinator tick on that
failure sets the failure flag while the previously published snapshot is
retained unchanged. -/
theorem c8_timeout_raises_updatefailed (c : DataUpdateCoordinator)
    (dev : MagicStripDevice) :
    async_update_data dev UpdateOutcome.timeout =
      Except.error HAExc.updateFailed ∧
    (coordinator_refresh c dev UpdateOutcome.timeout).1.data = c.data ∧
    (coordinator_refresh c dev UpdateOutcome.timeout).1.last_update_success
      = false := by
  exact ⟨rfl, rfl, rfl⟩

/-- C10: the presentation-boundary properties substitute the configured
defaults for falsy snapshot fields — brightness None or 0 (so known-zero
is indistinguishable from unknown), colour None, effect None or the empty
string — in both the light and the number entity, and return None exactly
when the coordinator holds no snapshot. -/
theorem c10_default_substitution (d : MagicStripState) (n : Nat) :
    lightBrightnessProp none = none ∧
    lightRgbColorProp none = none ∧
    lightEffectProp none = none ∧
    numberBrightnessProp none = none ∧
    lightBrightnessProp (some { d with brightness := some 0 })
      = some DEFAULT_BRIGHTNESS ∧
    lightBrightnessProp (some { d with brightness := none })
      = lightBrightnessProp (some { d with brightness := some 0 }) ∧
    lightBrightnessProp (some { d with brightness := some (n + 1) })
      = some (n + 1) ∧
    lightRgbColorProp (some { d with color := none }) = some DEFAULT_COLOR ∧
    lightEffectProp (some { d with effect := none }) = some DEFAULT_EFFECT ∧
    lightEffectProp (some { d with effect := some "" })
      = some DEFAULT_EFFECT ∧
    numberBrightnessProp (some { d with brightness := some 0 })
      = some DEFAULT_BRIGHTNESS ∧
    numberRgbColorProp (some { d with color := none })
      = some DEFAULT_COLOR ∧
    numberEffectProp (some { d with effect := none })
      = some DEFAULT_EFFECT ∧
    (lightBrightnessProp (some d)).isSome = true ∧
    (lightRgbColorProp (some d)).isSome = true ∧
    (lightEffectProp (some d)).isSome = true := by
  refine ⟨rfl, rfl, rfl, rfl, rfl, rfl, ?_, rfl, rfl, rfl, rfl, rfl, rfl,
    ?_, ?_, ?_⟩
  · simp [lightBrightnessProp]
  · cases hb : d.brightness <;> simp [lightBrightnessProp, hb]
  · cases hc : d.color <;> simp [lightRgbColorProp, hc]
  · cases he : d.effect <;> simp [lightEffectProp, he]

theorem lookupDevice_none_countKey {l : List (String × DeviceState)}
    {a : String} (h : lookupDevice l a = none) : countKey l a = 0 := by
  induction l with
  | nil => rfl
  | cons p rest ih =>
      by_cases hpa : p.1 = a
      · simp [lookupDevice, hpa] at h
      · simp only [lookupDevice, hpa, if_false] at h
        simp [countKey, hpa, ih h]

theorem countKey_append (l : List (String × DeviceState)) (b : String)
    (d : DeviceState) (a : String) :
    countKey (l ++ [(b, d)]) a
      = countKey l a + (if b = a then 1 else 0) := by
  induction l with
  | nil => simp [countKey]
  | cons p rest ih => simp [countKey, ih, Nat.add_assoc]

theorem countKey_setKey (l : List (String × DeviceState)) (b : String)
    (d : DeviceState) (a : String) :
    countKey (setKey l b d) a = countKey l a := by
  induction l with
  | nil => rfl
  | cons p rest ih =>
      by_cases hpb : p.1 = b
      · simp [setKey, hpb, countKey]
      · simp [setKey, hpb, countKey, ih]

theorem keysOf_setKey (l : List (String × DeviceState)) (b : String)
    (d : DeviceState) : keysOf (setKey l b d) = keysOf l := by
  induction l with
  | nil => rfl
  | cons p rest ih =>
      by_cases hpb : p.1 = b
      · simp [setKey, hpb, keysOf]
      · simp [setKey, hpb, keysOf] at ih ⊢
        exact ih

theorem countKey_dcState (st : EntryState) (ev : AdEvent) (a : String)
    (h : countKey st.devices a ≤ 1) :
    countKey (dcState st ev).devices a ≤ 1 := by
  unfold dcState detection_callback
  cases hl : lookupDevice st.devices ev.address with
  | some data =>
      cases ho : ev.outcome with
      | success s => simpa [countKey_setKey] using h
      | bleTimeout => exact h
      | updateFailedExc => exact h
      | bleakDBus => exact h
  | none =>
      have h0 : countKey st.devices ev.address = 0 :=
        lookupDevice_none_countKey hl
      by_cases hf : device_filter ev.adv
      · cases ho : ev.outcome with
        | success s =>
            simp only [hf, if_true, registerDevice, countKey_append]
            by_cases ha : ev.address = a
            · subst ha
              simp [h0]
            · simp [ha, h]
        | bleTimeout =>
            simp only [hf, if_true, registerDevice, countKey_append]
            by_cases ha : ev.address = a
            · subst ha
              simp [h0]
            · simp [ha, h]
        | updateFailedExc =>
            simp only [hf, if_true, registerDevice, countKey_append]
            by_cases ha : ev.address = a
            · subst ha
              simp [h0]
            · simp [ha, h]
        | bleakDBus => simpa [hf] using h
      · simpa [hf] using h

theorem processTrace_countKey_aux (evs : List AdEvent) (st : EntryState)
    (h : ∀ a, countKey st.devices a ≤ 1) :
    ∀ a, countKey (evs.foldl dcState st).devices a ≤ 1 := by
  induction evs generalizing st with
  | nil => exact h
  | cons ev rest ih =>
      exact ih (dcState st ev) (fun a => countKey_dcState st ev a (h a))

/-- C2: the registry keeps at most one session/coordinator entry per
address across any sequence of advertisements processed from a fresh entry
state, and an advertisement for an address already present is forwarded to
the existing entry: the callback changes no registry key and dispatches no
new-registration event. -/
theorem c2_registry_at_most_one_per_address :
    (∀ evs a, countKey (processTrace evs).devices a ≤ 1) ∧
    (∀ st ev d, lookupDevice st.devices ev.address = some d →
       keysOf (dcState st ev).devices = keysOf st.devices ∧
       dcEvents st ev = []) := by
  constructor
  · intro evs a
    exact processTrace_countKey_aux evs entryStateEmpty
      (fun _ => by simp [entryStateEmpty, countKey]) a
  · intro st ev d hl
    unfold dcState dcEvents detection_callback
    rw [hl]
    cases ho : ev.outcome with
    | success s => exact ⟨keysOf_setKey st.devices ev.address _, rfl⟩
    | bleTimeout => exact ⟨rfl, rfl⟩
    | updateFailedExc => exact ⟨rfl, rfl⟩
    | bleakDBus => exact ⟨rfl, rfl⟩

/-- Witness for C2: the single-entry bound on a concrete trace, and the
no-new-entry, no-event behaviour of a repeat advertisement for the
already-registered example device. -/
theorem c2_registry_at_most_one_per_address_witness :
    countKey (processTrace [exTimeoutEvent, exSuccessEvent]).devices exAddr
        ≤ 1 ∧
    (keysOf (dcState exEntryStateWithDevice exSuccessEvent).devices =
        keysOf exEntryStateWithDevice.devices ∧
     dcEvents exEntryStateWithDevice exSuccessEvent = []) :=
  ⟨c2_registry_at_most_one_per_address.1 [exTimeoutEvent, exSuccessEvent]
      exAddr,
   c2_registry_at_most_one_per_address.2 exEntryStateWithDevice
      exSuccessEvent exDeviceState rfl⟩

theorem runCmds_none (cmds : List Cmd) (d : MagicStripDevice) (i : Nat) :
    runCmds none d cmds i
      = Except.ok (cmds.foldl MagicStripDevice.applyCmd d) := by
  induction cmds generalizing d i with
  | nil => rfl
  | cons c rest ih => simp [runCmds, ih]

theorem applyCmd_brightness (d : MagicStripDevice) (c : Cmd)
    (h : ∀ b, c ≠ Cmd.setBrightness b) :
    (d.applyCmd c).state.brightness = d.state.brightness := by
  cases c with
  | setBrightness b => exact absurd rfl (h b)
  | togglePower => rfl
  | setColor r g bl => rfl
  | setEffect e => rfl

theorem foldl_brightness (l : List Cmd) (d : MagicStripDevice)
    (h : ∀ b, Cmd.setBrightness b ∉ l) :
    (l.foldl MagicStripDevice.applyCmd d).state.brightness
      = d.state.brightness := by
  induction l generalizing d with
  | nil => rfl
  | cons c rest ih =>
      rw [List.foldl_cons,
        ih _ (fun b hb => h b (List.mem_cons_of_mem _ hb)),
        applyCmd_brightness d c
          (fun b hc => h b (by rw [← hc]; exact List.mem_cons_self c rest))]

theorem toggleCmds_no_brightness (cd : Option MagicStripState) (b : Nat) :
    Cmd.setBrightness b ∉ toggleCmds cd := by
  unfold toggleCmds
  split <;> simp

theorem colorCmds_no_brightness (cd : Option MagicStripState)
    (kc : Option (Nat × Nat × Nat)) (b : Nat) :
    Cmd.setBrightness b ∉ colorCmds cd kc := by
  unfold colorCmds
  cases kc with
  | none => simp
  | some c => split <;> simp

theorem effectCmds_no_brightness (cd : Option MagicStripState)
    (ke : Option String) (b : Nat) :
    Cmd.setBrightness b ∉ effectCmds cd ke := by
  unfold effectCmds
  cases ke with
  | none => simp
  | some e => split <;> simp

/-- C7: a command call that completes without a transport error ends by
publishing the session's current snapshot through the owning coordinator
via async_set_updated_data: async_turn_on with requested brightness 128
succeeds, publishes the updated session state, and that state carries
brightness 128 immediately; async_turn_off likewise always ends with a
publish of the session state. -/
theorem c7_commands_publish_snapshot (ent : MagicStripLight)
    (kw : TurnOnKwargs) (h : kw.brightness = some 128) :
    (∃ ent2, ent.async_turn_on kw none = Except.ok ent2 ∧
       ent2.coordinator =
         ent.coordinator.async_set_updated_data ent2.device.state ∧
       ent2.device.state.brightness = some 128) ∧
    (∀ entb : MagicStripLight, ∃ ent3,
       entb.async_turn_off none = Except.ok ent3 ∧
       ent3.coordinator =
         entb.coordinator.async_set_updated_data ent3.device.state) := by
  constructor
  · refine ⟨{ ent with
        device := (turnOnCmds ent.coordinator.data kw).foldl
          MagicStripDevice.applyCmd ent.device
        coordinator := ent.coordinator.async_set_updated_data
          ((turnOnCmds ent.coordinator.data kw).foldl
            MagicStripDevice.applyCmd ent.device).state }, ?_, rfl, ?_⟩
    · unfold MagicStripLight.async_turn_on
      rw [runCmds_none]
    · show ((turnOnCmds ent.coordinator.data kw).foldl
          MagicStripDevice.applyCmd ent.device).state.brightness = some 128
      unfold turnOnCmds
      rw [h, List.foldl_append, List.foldl_append, List.foldl_append,
        foldl_brightness _ _
          (effectCmds_no_brightness ent.coordinator.data kw.effect),
        foldl_brightness _ _
          (colorCmds_no_brightness ent.coordinator.data kw.rgb_color)]
      rfl
  · intro entb
    refine ⟨{ entb with
        device := (if lightIsOnProp entb.coordinator.data = some true then
            [Cmd.togglePower] else []).foldl
          MagicStripDevice.applyCmd entb.device
        coordinator := entb.coordinator.async_set_updated_data
          ((if lightIsOnProp entb.coordinator.data = some true then
              [Cmd.togglePower] else []).foldl
            MagicStripDevice.applyCmd entb.device).state }, ?_, rfl⟩
    unfold MagicStripLight.async_turn_off
    simp only [runCmds_none]

/-- Witness for C7 at the concrete example light entity with
brightness 128 requested. -/
theorem c7_commands_publish_snapshot_witness :
    (∃ ent2, exLight.async_turn_on exKwargs none = Except.ok ent2 ∧
       ent2.coordinator =
         exLight.coordinator.async_set_updated_data ent2.device.state ∧
       ent2.device.state.brightness = some 128) ∧
    (∀ entb : MagicStripLight, ∃ ent3,
       entb.async_turn_off none = Except.ok ent3 ∧
       ent3.coordinator =
         entb.coordinator.async_set_updated_data ent3.device.state) :=
  c7_commands_publish_snapshot exLight exKwargs rfl

theorem receivedBy_append (sid : Nat) (l1 l2 : List (Nat × String)) :
    receivedBy sid (l1 ++ l2)
      = receivedBy sid l1 ++ receivedBy sid l2 := by
  induction l1 with
  | nil => rfl
  | cons p rest ih =>
      by_cases hp : p.1 = sid <;> simp [receivedBy, hp, ih]

theorem receivedBy_map_pair (sid : Nat) (ts : List Nat) (a : String) :
    receivedBy sid (ts.map (fun t => (t, a)))
      = List.replicate (countSub sid ts) a := by
  induction ts with
  | nil => rfl
  | cons t rest ih =>
      by_cases ht : t = sid
      · simp [receivedBy, countSub, ht, ih, Nat.add_comm,
          List.replicate_succ]
      · simp [receivedBy, countSub, ht, ih]

theorem receivedBy_map_self (sid : Nat) (l : List String) :
    receivedBy sid (l.map (fun a => (sid, a))) = l := by
  induction l with
  | nil => rfl
  | cons a rest ih => simp [receivedBy, ih]

theorem countSub_append (sid : Nat) (l1 l2 : List Nat) :
    countSub sid (l1 ++ l2) = countSub sid l1 + countSub sid l2 := by
  induction l1 with
  | nil => simp [countSub]
  | cons t rest ih => simp [countSub, ih, Nat.add_assoc]

theorem runOps_not_subscribed (ops : List FanOp) (s : FanState) (sid : Nat)
    (hops : ∀ op ∈ ops, op ≠ FanOp.subscr sid)
    (hsub : countSub sid s.subs = 0) :
    countSub sid (runOps s ops).subs = 0 ∧
    receivedBy sid (runOps s ops).received
      = receivedBy sid s.received := by
  induction ops generalizing s with
  | nil => exact ⟨hsub, rfl⟩
  | cons op rest ih =>
      have hrest : ∀ o ∈ rest, o ≠ FanOp.subscr sid :=
        fun o ho => hops o (List.mem_cons_of_mem _ ho)
      have hstep : countSub sid (fanStep s op).subs = 0 ∧
          receivedBy sid (fanStep s op).received
            = receivedBy sid s.received := by
        cases op with
        | newDevice a =>
            by_cases hc : a ∈ s.devices
            · simp [fanStep, hc, hsub]
            · simp [fanStep, hc, hsub, receivedBy_append,
                receivedBy_map_pair]
        | subscr t =>
            have ht : t ≠ sid := by
              intro e
              exact hops (FanOp.subscr t) (List.mem_cons_self _ _)
                (by rw [e])
            constructor
            · simp [fanStep, countSub_append, hsub, countSub, ht]
            · have : receivedBy sid (s.devices.map (fun a => (t, a)))
                  = [] := by
                induction s.devices with
                | nil => rfl
                | cons a da ihd => simp [receivedBy, ht, ihd]
              simp [fanStep, receivedBy_append, this]
      obtain ⟨h1, h2⟩ := ih (fanStep s op) hrest hstep.1
      exact ⟨h1, h2.trans hstep.2⟩

theorem runOps_subscribed (ops : List FanOp) (s : FanState) (sid : Nat)
    (hops : ∀ op ∈ ops, op ≠ FanOp.subscr sid)
    (hsub : countSub sid s.subs = 1) :
    receivedBy sid (runOps s ops).received
      = receivedBy sid s.received ++ regsDuring s ops := by
  induction ops generalizing s with
  | nil => simp [runOps, regsDuring]
  | cons op rest ih =>
      have hrest : ∀ o ∈ rest, o ≠ FanOp.subscr sid :=
        fun o ho => hops o (List.mem_cons_of_mem _ ho)
      cases op with
      | newDevice a =>
          by_cases hc : a ∈ s.devices
          · have hstep : fanStep s (FanOp.newDevice a) = s := by
              simp [fanStep, hc]
            rw [runOps, hstep, ih s hrest hsub]
            simp [regsDuring, hstep, hc]
          · have hstate : fanStep s (FanOp.newDevice a) =
                { devices := s.devices ++ [a]
                  subs := s.subs
                  received := s.received ++
                    s.subs.map (fun t => (t, a)) } := by
              simp [fanStep, hc]
            have hsub2 : countSub sid
                (fanStep s (FanOp.newDevice a)).subs = 1 := by
              rw [hstate]
              exact hsub
            rw [runOps, ih (fanStep s (FanOp.newDevice a)) hrest hsub2]
            rw [hstate]
            simp [regsDuring, hc, receivedBy_append,
              receivedBy_map_pair, hsub, List.append_assoc, hstate]
      | subscr t =>
          have ht : t ≠ sid := by
            intro e
            exact hops (FanOp.subscr t) (List.mem_cons_self _ _)
              (by rw [e])
          rw [runOps, regsDuring]
          have hnew : countSub sid (fanStep s (FanOp.subscr t)).subs
              = 1 := by
            simp [fanStep, countSub_append, hsub, countSub, ht]
          rw [ih _ hrest hnew]
          have hrec : receivedBy sid
              (s.devices.map (fun a => (t, a))) = [] := by
            induction s.devices with
            | nil => rfl
            | cons a da ihd => simp [receivedBy, ht, ihd]
          simp [fanStep, receivedBy_append, hrec]

/-- C9: a subscriber attached after some prefix of operations is handed
exactly the entries existing at its registration point (one per registry
entry) and afterwards exactly one notification per subsequent
new-registration event: its delivery log equals the registry at
subscription time followed by the registrations that happen later — no
duplicate, no omission. -/
theorem c9_late_subscriber_exact (pre post : List FanOp) (sid : Nat)
    (hpre : ∀ op ∈ pre, op ≠ FanOp.subscr sid)
    (hpost : ∀ op ∈ post, op ≠ FanOp.subscr sid) :
    receivedBy sid
        (runOps (fanStep (runOps initFan pre) (FanOp.subscr sid))
          post).received
      = (runOps initFan pre).devices ++
        regsDuring (fanStep (runOps initFan pre) (FanOp.subscr sid))
          post := by
  have h0 := runOps_not_subscribed pre initFan sid hpre (by rfl)
  have hsub2 : countSub sid
      (fanStep (runOps initFan pre) (FanOp.subscr sid)).subs = 1 := by
    simp [fanStep, countSub_append, h0.1, countSub]
  have hrecv2 : receivedBy sid
      (fanStep (runOps initFan pre) (FanOp.subscr sid)).received
      = (runOps initFan pre).devices := by
    have hinit : receivedBy sid (runOps initFan pre).received = [] := by
      rw [h0.2]
      rfl
    simp [fanStep, receivedBy_append, hinit, receivedBy_map_self]
  rw [runOps_subscribed post _ sid hpost hsub2, hrecv2]

/-- Witness for C9: two devices registered before subscription, then one
genuinely new device and one repeat advertisement after it — the
subscriber receives exactly the two existing entries followed by the one
new registration. -/
theorem c9_late_subscriber_exact_witness :
    receivedBy 7
        (runOps (fanStep (runOps initFan
            [FanOp.newDevice "A", FanOp.newDevice "B"]) (FanOp.subscr 7))
          [FanOp.newDevice "C", FanOp.newDevice "A"]).received
      = (runOps initFan
          [FanOp.newDevice "A", FanOp.newDevice "B"]).devices ++
        regsDuring (fanStep (runOps initFan
            [FanOp.newDevice "A", FanOp.newDevice "B"]) (FanOp.subscr 7))
          [FanOp.newDevice "C", FanOp.newDevice "A"] :=
  c9_late_subscriber_exact [FanOp.newDevice "A", FanOp.newDevice "B"]
    [FanOp.newDevice "C", FanOp.newDevice "A"] 7
    (by decide) (by decide)

end HaMagicStrip
